import Mathlib

/-!
Verification of the framing and request/response multiplexing core of an
ELM327-class serial OBD driver (`elm.py`).

The device methods are embedded as pure functions over an explicit device
state together with an event trace.  Serial writes, queue operations, flag
updates and callback invocations are recorded as events, so ordering
properties of the suspend/resume protocol can be stated directly.  The
receive queue (`queue.Queue` in the source) is a list; a blocking `get()`
on an empty queue is modelled by the `blocked` outcome.  Logging calls are
omitted throughout (they do not touch device state or the serial port).
-/

/-- Result of a method call: normal return, a raised Python exception
(message kept verbatim), or blocking forever on an empty receive queue. -/
inductive Outcome (α : Type) where
  | ok (a : α)
  | error (msg : String)
  | blocked
  deriving DecidableEq

/-- Return value of `execute_many`: the bytes of the last drawn response,
or the literal string sentinel `SKIPPED` used when `wait_for_response` is
false. -/
inductive Resp where
  | bytes (data : String)
  | skipped
  deriving DecidableEq

/-- Observable actions of the device, in program order.  `write` is a write
of raw bytes to the serial port; `draw` removes a frame from the front of
the receive queue; `put` appends a completed frame to the receive queue
(done by the reader thread); `callback` is an invocation of the registered
monitor callback (identified by a numeric id) with the trimmed frame. -/
inductive Event where
  | setMonitoring (b : Bool)
  | setProcessing (b : Bool)
  | setCallback (cb : Option Nat)
  | write (data : String)
  | draw (resp : String)
  | put (msg : String)
  | callback (cb : Nat) (data : String)
  deriving DecidableEq

/-- Device state of the `ELM` class.  `monitor_callback` holds the id of
the registered callback function (`None` initially).  `recv_buffer` is the
receive queue, front first.  The `data_byte` attribute is used only in log
messages and is omitted. -/
structure ELMState where
  running : Bool
  serial_open : Bool
  monitoring : Bool
  processing_command : Bool
  monitor_callback : Option Nat
  header : Option String
  protocol : Nat
  recv_buffer : List String
  deriving DecidableEq

/-- The bytes written to the serial port for one command:
`f'{command}\r'.encode()`. -/
def encodeCmd (command : String) : String := command ++ "\r"

/-- `header.replace(' ', '')`: remove every space character. -/
def removeSpaces (s : String) : String :=
  List.asString (s.toList.filter (fun c => c != ' '))

/-- ASCII whitespace stripped by the Python `int` constructor. -/
def pyWS (c : Char) : Bool :=
  c = ' ' || c = '\t' || c = '\n' || c = '\r' || c = '\x0b' || c = '\x0c'

/-- Hexadecimal digit as accepted by `int(_, 16)`. -/
def isHexDig (c : Char) : Bool :=
  c.isDigit || ('a' ≤ c && c ≤ 'f') || ('A' ≤ c && c ≤ 'F')

/-- Digit run of `int(_, 16)` after the first digit: single underscores are
allowed, but only between hex digits. -/
def hexTail : List Char → Bool
  | [] => true
  | '_' :: rest =>
    match rest with
    | [] => false
    | c :: r => isHexDig c && hexTail r
  | c :: rest => isHexDig c && hexTail rest

/-- Nonempty run of hex digits with single underscores between digits. -/
def hexDigitsOk : List Char → Bool
  | [] => false
  | c :: rest => isHexDig c && hexTail rest

/-- Digits following a `0x`/`0X` marker: one underscore may directly
follow the marker. -/
def hexAfterPfx : List Char → Bool
  | '_' :: rest => hexDigitsOk rest
  | rest => hexDigitsOk rest

/-- Models acceptance by the Python builtin `int(s, 16)` (the hex
validation used by `set_header`, `send` and `send_with_header`): optional
surrounding ASCII whitespace, optional sign, optional `0x`/`0X` marker,
then a nonempty run of hex digits with single underscores between digits. -/
def pyIntBase16Ok (s : String) : Bool :=
  let cs := List.reverse (List.dropWhile pyWS (List.reverse (List.dropWhile pyWS s.toList)))
  let cs := match cs with
    | '+' :: r => r
    | '-' :: r => r
    | r => r
  match cs with
  | '0' :: 'x' :: rest => hexAfterPfx rest
  | '0' :: 'X' :: rest => hexAfterPfx rest
  | r => hexDigitsOk r

/-- Python slice `data[:-2]`: drop the last two bytes (empty result when
the frame has fewer than two bytes). -/
def pyDropLast2 (s : String) : String :=
  List.asString (s.toList.take (s.toList.length - 2))

/-- Does the list start with the given pattern? -/
def listStarts (pat l : List Char) : Bool :=
  match pat, l with
  | [], _ => true
  | _ :: _, [] => false
  | p :: ps, c :: cs => p == c && listStarts ps cs

/-- Contiguous-sublist test. -/
def listContainsSub (pat l : List Char) : Bool :=
  match l with
  | [] => listStarts pat []
  | _ :: cs => listStarts pat l || listContainsSub pat cs

/-- `pat in data` on Python bytes: substring containment. -/
def bytesContains (data pat : String) : Bool :=
  listContainsSub pat.toList data.toList

/-- `_draw_response`: `self._recv_buffer.get()` — remove and return the
front of the receive queue, blocking forever when it is empty. -/
def draw_response (s : ELMState) : ELMState × List Event × Outcome String :=
  match s.recv_buffer with
  | [] => (s, [], Outcome.blocked)
  | r :: rest => ({ s with recv_buffer := rest }, [Event.draw r], Outcome.ok r)

/-- The `for command in commands` loop of `execute_many`: write each
CR-terminated command, and when `wait_for_response` is set draw its
response, keeping the last value of `resp`. -/
def execLoop (s : ELMState) (commands : List String) (resp : Resp) (wait_for_response : Bool) :
    ELMState × List Event × Outcome Resp :=
  match commands with
  | [] => (s, [], Outcome.ok resp)
  | c :: cs =>
    let wev := Event.write (encodeCmd c)
    if wait_for_response then
      let d := draw_response s
      match d.2.2 with
      | Outcome.ok r =>
        let k := execLoop d.1 cs (Resp.bytes r) wait_for_response
        (k.1, wev :: d.2.1 ++ k.2.1, k.2.2)
      | Outcome.error e => (d.1, wev :: d.2.1, Outcome.error e)
      | Outcome.blocked => (d.1, wev :: d.2.1, Outcome.blocked)
    else
      let k := execLoop s cs Resp.skipped wait_for_response
      (k.1, wev :: k.2.1, k.2.2)

/-- Body of `execute_many` without the suspend/resume wrapper (this is
exactly `execute_many` when `resume_ma and self.monitoring` is false):
set `_processing_command`, run the command loop starting from
`resp = bytes()`, and clear `_processing_command` on normal completion. -/
def executeManyCore (s : ELMState) (commands : List String) (wait_for_response : Bool) :
    ELMState × List Event × Outcome Resp :=
  let s1 := { s with processing_command := true }
  let r := execLoop s1 commands (Resp.bytes "") wait_for_response
  match r.2.2 with
  | Outcome.ok v =>
    ({ r.1 with processing_command := false },
      Event.setProcessing true :: r.2.1 ++ [Event.setProcessing false], Outcome.ok v)
  | Outcome.error e => (r.1, Event.setProcessing true :: r.2.1, Outcome.error e)
  | Outcome.blocked => (r.1, Event.setProcessing true :: r.2.1, Outcome.blocked)

/-- `stop_monitor_all`: clear `monitoring` first, then
`self.execute('', resume_ma=False)` — i.e. run the core cycle on the
empty command with the default `wait_for_response=True`. -/
def stop_monitor_all (s : ELMState) : ELMState × List Event × Outcome Resp :=
  let s1 := { s with monitoring := false }
  let r := executeManyCore s1 [""] true
  (r.1, Event.setMonitoring false :: r.2.1, r.2.2)

/-- `monitor_all`: store the callback, return at once when already
monitoring, otherwise set `monitoring` and issue `ATMA` with
`resume_ma=False, wait_for_response=False`. -/
def monitor_all (s : ELMState) (cb : Option Nat) : ELMState × List Event × Outcome Unit :=
  let s1 := { s with monitor_callback := cb }
  if s1.monitoring then (s1, [Event.setCallback cb], Outcome.ok ())
  else
    let s2 := { s1 with monitoring := true }
    let r := executeManyCore s2 ["ATMA"] false
    (r.1, Event.setCallback cb :: Event.setMonitoring true :: r.2.1,
      match r.2.2 with
      | Outcome.ok _ => Outcome.ok ()
      | Outcome.error e => Outcome.error e
      | Outcome.blocked => Outcome.blocked)

/-- `execute_many`: when `resume_ma and self.monitoring`, suspend via
`stop_monitor_all`, run the command cycle, then resume by calling
`monitor_all` with the stored `_monitor_callback`; otherwise just the
command cycle. -/
def execute_many (s : ELMState) (commands : List String) (resume_ma wait_for_response : Bool) :
    ELMState × List Event × Outcome Resp :=
  let resume_monitoring := resume_ma && s.monitoring
  if resume_monitoring then
    let r1 := stop_monitor_all s
    match r1.2.2 with
    | Outcome.ok _ =>
      let r2 := executeManyCore r1.1 commands wait_for_response
      match r2.2.2 with
      | Outcome.ok v =>
        let r3 := monitor_all r2.1 r2.1.monitor_callback
        match r3.2.2 with
        | Outcome.ok _ => (r3.1, r1.2.1 ++ r2.2.1 ++ r3.2.1, Outcome.ok v)
        | Outcome.error e => (r3.1, r1.2.1 ++ r2.2.1 ++ r3.2.1, Outcome.error e)
        | Outcome.blocked => (r3.1, r1.2.1 ++ r2.2.1 ++ r3.2.1, Outcome.blocked)
      | Outcome.error e => (r2.1, r1.2.1 ++ r2.2.1, Outcome.error e)
      | Outcome.blocked => (r2.1, r1.2.1 ++ r2.2.1, Outcome.blocked)
    | Outcome.error e => (r1.1, r1.2.1, Outcome.error e)
    | Outcome.blocked => (r1.1, r1.2.1, Outcome.blocked)
  else executeManyCore s commands wait_for_response

/-- `execute`: `execute_many` with a single command. -/
def execute (s : ELMState) (command : String) (resume_ma wait_for_response : Bool) :
    ELMState × List Event × Outcome Resp :=
  execute_many s [command] resume_ma wait_for_response

/-- `_process_data`: draw a frame from the receive queue, discard it when
it is exactly the `ATMA` command echo, otherwise pass it (with the last
two bytes stripped) to the monitor callback unless a synchronous command
is being processed.  Calling a `None` callback raises. -/
def process_data (s : ELMState) : ELMState × List Event × Outcome Unit :=
  let d := draw_response s
  match d.2.2 with
  | Outcome.ok data =>
    if data = "ATMA\r" then (d.1, d.2.1, Outcome.ok ())
    else if d.1.processing_command then (d.1, d.2.1, Outcome.ok ())
    else
      match d.1.monitor_callback with
      | some cb => (d.1, d.2.1 ++ [Event.callback cb (pyDropLast2 data)], Outcome.ok ())
      | none => (d.1, d.2.1, Outcome.error "TypeError: NoneType object is not callable")
  | Outcome.error e => (d.1, d.2.1, Outcome.error e)
  | Outcome.blocked => (d.1, d.2.1, Outcome.blocked)

/-- One iteration of the reader loop `run` at the moment a frame is
completed by its mode-dependent stop character: the frame is put on the
receive queue, and when `monitoring` is set `_process_data` is called. -/
def run_step (s : ELMState) (msg : String) : ELMState × List Event × Outcome Unit :=
  let s1 := { s with recv_buffer := s.recv_buffer ++ [msg] }
  if s1.monitoring then
    let r := process_data s1
    (r.1, Event.put msg :: r.2.1, r.2.2)
  else (s1, [Event.put msg], Outcome.ok ())

/-- `stop`: clear `_running` and close the serial port.  Nothing is put on
the receive queue. -/
def stop (s : ELMState) : ELMState × List Event :=
  ({ s with running := false, serial_open := false }, [])

/-- `set_header` on a string argument: normalize by removing spaces,
return silently when equal to the memoized header, otherwise update the
memo, then validate as hex (raising on failure) and issue the `ATSH`
command.  Note the memo is updated before validation. -/
def set_header (s : ELMState) (header : String) : ELMState × List Event × Outcome Unit :=
  let h := removeSpaces header
  if s.header = some h then (s, [], Outcome.ok ())
  else
    let s1 := { s with header := some h }
    if pyIntBase16Ok h then
      let r := execute s1 ("ATSH " ++ h) true true
      (r.1, r.2.1,
        match r.2.2 with
        | Outcome.ok _ => Outcome.ok ()
        | Outcome.error e => Outcome.error e
        | Outcome.blocked => Outcome.blocked)
    else (s1, [], Outcome.error "Header must be HEX")

/-- `send_with_header` on a string header: validate header, then message,
then run the two-command batch (the memo comparison in the source only
emits a log line and is omitted). -/
def send_with_header (s : ELMState) (header message : String) : ELMState × List Event × Outcome Unit :=
  let h := removeSpaces header
  if pyIntBase16Ok h then
    let m := removeSpaces message
    if pyIntBase16Ok m then
      let r := execute_many s ["ATSH " ++ h, m] true true
      (r.1, r.2.1,
        match r.2.2 with
        | Outcome.ok _ => Outcome.ok ()
        | Outcome.error e => Outcome.error e
        | Outcome.blocked => Outcome.blocked)
    else (s, [], Outcome.error "Message must be hex-string")
  else (s, [], Outcome.error "Header must be HEX")

/-- `send`: validate the message as hex, execute it, and report adapter
rejection (a `?` byte or an `ERROR` substring in the response) as a
boolean.  The `skipped` case cannot occur with `wait_for_response=True`;
in Python comparing bytes patterns against the `SKIPPED` string would
raise, which the model mirrors. -/
def send (s : ELMState) (message : String) : ELMState × List Event × Outcome Bool :=
  let m := removeSpaces message
  if pyIntBase16Ok m then
    let r := execute s m true true
    match r.2.2 with
    | Outcome.ok (Resp.bytes data) =>
      (r.1, r.2.1, Outcome.ok (!(bytesContains data "?" || bytesContains data "ERROR")))
    | Outcome.ok Resp.skipped => (r.1, r.2.1, Outcome.error "TypeError")
    | Outcome.error e => (r.1, r.2.1, Outcome.error e)
    | Outcome.blocked => (r.1, r.2.1, Outcome.blocked)
  else (s, [], Outcome.error "Message must be hex-string")

/-- Projection of a trace to the list of serial writes, in order. -/
def writesOf (evs : List Event) : List String :=
  evs.filterMap fun e =>
    match e with
    | Event.write d => some d
    | _ => none

/-- Expected trace of the command loop of `execute_many` when waiting for
responses: alternate writes and draws, pairing commands with queued
responses. -/
def loopTrace (commands responses : List String) : List Event :=
  match commands, responses with
  | [], _ => []
  | c :: _, [] => [Event.write (encodeCmd c)]
  | c :: cs, r :: rs => Event.write (encodeCmd c) :: Event.draw r :: loopTrace cs rs

/-- The value of `resp` after the command loop: the last paired response,
or the initial value when there are no commands. -/
def lastResp (commands responses : List String) (resp : Resp) : Resp :=
  match commands, responses with
  | [], _ => resp
  | _ :: _, [] => resp
  | _ :: cs, r :: rs => lastResp cs rs (Resp.bytes r)

/-! ## Characterization lemmas for the command cycle -/

theorem execLoop_eq (cmds : List String) :
    ∀ (s : ELMState) (resp : Resp), cmds.length ≤ s.recv_buffer.length →
    execLoop s cmds resp true =
      ({ s with recv_buffer := s.recv_buffer.drop cmds.length },
        loopTrace cmds s.recv_buffer,
        Outcome.ok (lastResp cmds s.recv_buffer resp)) := by
  induction cmds with
  | nil =>
    intro s resp _
    simp [execLoop, loopTrace, lastResp]
  | cons c cs ih =>
    intro s resp hlen
    obtain ⟨rn, so, mon, pc, cb, hd, pr, buf⟩ := s
    cases buf with
    | nil => simp at hlen
    | cons r rest =>
      have h2 : cs.length ≤ rest.length := by simpa using hlen
      simp only [execLoop, draw_response]
      rw [ih ⟨rn, so, mon, pc, cb, hd, pr, rest⟩ (Resp.bytes r) (by simpa using h2)]
      simp [loopTrace, lastResp]

theorem writesOf_loopTrace (cmds : List String) :
    ∀ rs : List String, cmds.length ≤ rs.length →
    writesOf (loopTrace cmds rs) = cmds.map encodeCmd := by
  induction cmds with
  | nil => intro rs _; simp [loopTrace, writesOf]
  | cons c cs ih =>
    intro rs h
    cases rs with
    | nil => simp at h
    | cons r rest =>
      simp only [loopTrace, writesOf, List.filterMap_cons]
      rw [← writesOf]
      rw [ih rest (by simpa using h)]
      simp

theorem executeManyCore_eq (rn so mon pc : Bool) (cb : Option Nat) (hd : Option String)
    (pr : Nat) (cmds buf : List String) (h : cmds.length ≤ buf.length) :
    executeManyCore ⟨rn, so, mon, pc, cb, hd, pr, buf⟩ cmds true =
      (⟨rn, so, mon, false, cb, hd, pr, buf.drop cmds.length⟩,
        Event.setProcessing true :: loopTrace cmds buf ++ [Event.setProcessing false],
        Outcome.ok (lastResp cmds buf (Resp.bytes ""))) := by
  simp only [executeManyCore]
  rw [execLoop_eq cmds ⟨rn, so, mon, true, cb, hd, pr, buf⟩ (Resp.bytes "") (by simpa using h)]

theorem stop_monitor_all_eq (rn so mon pc : Bool) (cb : Option Nat) (hd : Option String)
    (pr : Nat) (p : String) (rest : List String) :
    stop_monitor_all ⟨rn, so, mon, pc, cb, hd, pr, p :: rest⟩ =
      (⟨rn, so, false, false, cb, hd, pr, rest⟩,
        [Event.setMonitoring false, Event.setProcessing true, Event.write "\r",
          Event.draw p, Event.setProcessing false],
        Outcome.ok (Resp.bytes p)) := by
  simp only [stop_monitor_all]
  rw [executeManyCore_eq rn so false pc cb hd pr [""] (p :: rest) (by simp)]
  simp [loopTrace, lastResp, encodeCmd]

theorem monitor_all_off_eq (rn so pc : Bool) (cb : Option Nat) (hd : Option String)
    (pr : Nat) (buf : List String) (cb2 : Option Nat) :
    monitor_all ⟨rn, so, false, pc, cb, hd, pr, buf⟩ cb2 =
      (⟨rn, so, true, false, cb2, hd, pr, buf⟩,
        [Event.setCallback cb2, Event.setMonitoring true, Event.setProcessing true,
          Event.write "ATMA\r", Event.setProcessing false],
        Outcome.ok ()) := by
  simp [monitor_all, executeManyCore, execLoop, encodeCmd]

theorem execute_many_resume_eq (rn so pc : Bool) (cb : Option Nat) (hd : Option String)
    (pr : Nat) (cmds : List String) (p : String) (rest : List String)
    (h : cmds.length ≤ rest.length) :
    execute_many ⟨rn, so, true, pc, cb, hd, pr, p :: rest⟩ cmds true true =
      (⟨rn, so, true, false, cb, hd, pr, rest.drop cmds.length⟩,
        Event.setMonitoring false :: Event.setProcessing true :: Event.write "\r" ::
          Event.draw p :: Event.setProcessing false :: Event.setProcessing true ::
          (loopTrace cmds rest ++
            (Event.setProcessing false :: Event.setCallback cb :: Event.setMonitoring true ::
              Event.setProcessing true :: Event.write "ATMA\r" :: [Event.setProcessing false])),
        Outcome.ok (lastResp cmds rest (Resp.bytes ""))) := by
  simp only [execute_many]
  rw [stop_monitor_all_eq rn so true pc cb hd pr p rest]
  rw [executeManyCore_eq rn so false false cb hd pr cmds rest h]
  rw [monitor_all_off_eq rn so false cb hd pr (rest.drop cmds.length) cb]
  simp

/-! ## Claims -/

/-- Claim C1: for every execute call (here `execute_many` with `resume_ma`
not opted out) made while monitoring is active, the serial port sees the
cancel probe, then the requested commands in order, then the start-monitor
command `ATMA`; the monitoring flag is cleared before the probe write and
the probe response is drawn before any requested command is written (both
read off the full trace equality); and the registered callback after the
call is the one registered before it. -/
theorem execute_many_suspend_resume (s : ELMState) (cmds : List String) (p : String)
    (rest : List String) (hm : s.monitoring = true) (hb : s.recv_buffer = p :: rest)
    (hn : cmds.length ≤ rest.length) :
    (execute_many s cmds true true).2.1 =
      Event.setMonitoring false :: Event.setProcessing true :: Event.write "\r" ::
        Event.draw p :: Event.setProcessing false :: Event.setProcessing true ::
        (loopTrace cmds rest ++
          (Event.setProcessing false :: Event.setCallback s.monitor_callback ::
            Event.setMonitoring true :: Event.setProcessing true :: Event.write "ATMA\r" ::
            [Event.setProcessing false])) ∧
    writesOf (execute_many s cmds true true).2.1 =
      "\r" :: cmds.map encodeCmd ++ ["ATMA\r"] ∧
    (execute_many s cmds true true).1.monitor_callback = s.monitor_callback ∧
    (execute_many s cmds true true).1.monitoring = true ∧
    (execute_many s cmds true true).2.2 = Outcome.ok (lastResp cmds rest (Resp.bytes "")) := by
  obtain ⟨rn, so, mon, pc, cb, hd, pr, buf⟩ := s
  simp only at hm hb
  subst hm hb
  rw [execute_many_resume_eq rn so pc cb hd pr cmds p rest hn]
  have hw := writesOf_loopTrace cmds rest hn
  refine ⟨rfl, ?_, rfl, rfl, rfl⟩
  simp only [writesOf] at hw ⊢
  simp [List.filterMap_cons, List.filterMap_append, hw]

/-- Witness for C1: a monitoring device with callback id 7 and two queued
frames, executing the single command `0100`. -/
theorem execute_many_suspend_resume_wit :
    (⟨true, true, true, false, some 7, none, 0, [">", "41>"]⟩ : ELMState).monitoring = true ∧
    (⟨true, true, true, false, some 7, none, 0, [">", "41>"]⟩ : ELMState).recv_buffer =
      ">" :: ["41>"] ∧
    (["0100"] : List String).length ≤ (["41>"] : List String).length ∧
    ((execute_many ⟨true, true, true, false, some 7, none, 0, [">", "41>"]⟩ ["0100"] true true).2.1 =
      Event.setMonitoring false :: Event.setProcessing true :: Event.write "\r" ::
        Event.draw ">" :: Event.setProcessing false :: Event.setProcessing true ::
        (loopTrace ["0100"] ["41>"] ++
          (Event.setProcessing false ::
            Event.setCallback (⟨true, true, true, false, some 7, none, 0, [">", "41>"]⟩ : ELMState).monitor_callback ::
            Event.setMonitoring true :: Event.setProcessing true :: Event.write "ATMA\r" ::
            [Event.setProcessing false])) ∧
    writesOf (execute_many ⟨true, true, true, false, some 7, none, 0, [">", "41>"]⟩ ["0100"] true true).2.1 =
      "\r" :: (["0100"] : List String).map encodeCmd ++ ["ATMA\r"] ∧
    (execute_many ⟨true, true, true, false, some 7, none, 0, [">", "41>"]⟩ ["0100"] true true).1.monitor_callback =
      (⟨true, true, true, false, some 7, none, 0, [">", "41>"]⟩ : ELMState).monitor_callback ∧
    (execute_many ⟨true, true, true, false, some 7, none, 0, [">", "41>"]⟩ ["0100"] true true).1.monitoring = true ∧
    (execute_many ⟨true, true, true, false, some 7, none, 0, [">", "41>"]⟩ ["0100"] true true).2.2 =
      Outcome.ok (lastResp ["0100"] ["41>"] (Resp.bytes ""))) :=
  ⟨rfl, rfl, by decide,
    execute_many_suspend_resume ⟨true, true, true, false, some 7, none, 0, [">", "41>"]⟩
      ["0100"] ">" ["41>"] rfl rfl (by decide)⟩

/-- Claim C2 is a code bug: a frame completed by the reader while
`monitoring` and `_processing_command` are both set is removed from the
receive queue by `_process_data` and discarded, so it does not remain
available for the waiting synchronous caller (the callback is indeed not
invoked, but the handoff is emptied).  Here the state after handling the
frame has an empty receive queue and the trace shows the frame being put
and immediately drawn, with no callback event. -/
theorem run_step_discards_frame_during_command :
    (run_step ⟨true, true, true, true, some 1, none, 0, []⟩ "7E8 06 41 00\r").2.1 =
      [Event.put "7E8 06 41 00\r", Event.draw "7E8 06 41 00\r"] ∧
    (run_step ⟨true, true, true, true, some 1, none, 0, []⟩ "7E8 06 41 00\r").1.recv_buffer =
      [] := by
  constructor <;> rfl

/-- Claim C3 is a code bug: `stop` clears `_running` and closes the serial
port but never posts anything to the receive queue, and `_draw_response`
is an unbounded blocking `get`, so a caller blocked on an empty queue
stays blocked after `stop`. -/
theorem stop_leaves_recv_buffer :
    (∀ s : ELMState, (stop s).1.recv_buffer = s.recv_buffer) ∧
    (draw_response (stop ⟨true, true, false, true, none, none, 0, []⟩).1).2.2 =
      Outcome.blocked :=
  ⟨fun _ => rfl, rfl⟩

/-- Claim C4 is a code bug: `stop_monitor_all` does clear `monitoring`
first, but the cancel command it then sends is the empty string, so the
only bytes written are the bare carriage return `"\r"` — zero characters
of command text, although the comments in the source require a command of
length at least one and warn against sending a bare CR. -/
theorem stop_monitor_all_writes_bare_cr :
    (stop_monitor_all ⟨true, true, true, false, some 1, none, 0, [">"]⟩).2.1 =
      [Event.setMonitoring false, Event.setProcessing true, Event.write "\r",
        Event.draw ">", Event.setProcessing false] ∧
    writesOf (stop_monitor_all ⟨true, true, true, false, some 1, none, 0, [">"]⟩).2.1 =
      [encodeCmd ""] ∧
    encodeCmd "" = "\r" :=
  ⟨rfl, rfl, rfl⟩

/-- Counterexample to claim C5: calling `monitor_all` with a new callback
while already monitoring replaces the registered callback — the stored
callback id is the new one, not the previously registered one. -/
theorem monitor_all_replaces_callback :
    (monitor_all ⟨true, true, true, false, some 1, none, 0, []⟩ (some 2)).1.monitor_callback =
      some 2 ∧
    ¬ (monitor_all ⟨true, true, true, false, some 1, none, 0, []⟩ (some 2)).1.monitor_callback =
      some 1 := by
  decide

/-- Claim C5 as amended: calling `monitor_all` while already monitoring
writes no command and leaves `monitoring` set, but the registered
callback is replaced by the argument before the early return. -/
theorem monitor_all_while_monitoring (s : ELMState) (cb : Option Nat)
    (h : s.monitoring = true) :
    (monitor_all s cb).2.1 = [Event.setCallback cb] ∧
    writesOf (monitor_all s cb).2.1 = [] ∧
    (monitor_all s cb).1.monitoring = true ∧
    (monitor_all s cb).1.monitor_callback = cb ∧
    (monitor_all s cb).2.2 = Outcome.ok () := by
  obtain ⟨rn, so, mon, pc, cb0, hd, pr, buf⟩ := s
  simp only at h
  subst h
  simp [monitor_all, writesOf]

/-- Witness for the amended C5: callback 2 registered over callback 1 on a
monitoring device. -/
theorem monitor_all_while_monitoring_wit :
    (⟨true, true, true, false, some 1, none, 0, []⟩ : ELMState).monitoring = true ∧
    ((monitor_all ⟨true, true, true, false, some 1, none, 0, []⟩ (some 2)).2.1 =
      [Event.setCallback (some 2)] ∧
    writesOf (monitor_all ⟨true, true, true, false, some 1, none, 0, []⟩ (some 2)).2.1 = [] ∧
    (monitor_all ⟨true, true, true, false, some 1, none, 0, []⟩ (some 2)).1.monitoring = true ∧
    (monitor_all ⟨true, true, true, false, some 1, none, 0, []⟩ (some 2)).1.monitor_callback =
      some 2 ∧
    (monitor_all ⟨true, true, true, false, some 1, none, 0, []⟩ (some 2)).2.2 =
      Outcome.ok ()) :=
  ⟨rfl, monitor_all_while_monitoring ⟨true, true, true, false, some 1, none, 0, []⟩ (some 2) rfl⟩

/-- Counterexample to claim C6: repeating `set_header` with the same
non-hex string hits the memo check — the second call raises nothing and
returns silently, because the first call stored the rejected value in the
memo before raising. -/
theorem set_header_nonhex_repeat_silent :
    ((set_header ⟨true, true, false, false, none, none, 0, []⟩ "zz").2.2 =
      Outcome.error "Header must be HEX") ∧
    ((set_header ((set_header ⟨true, true, false, false, none, none, 0, []⟩ "zz").1) "zz").2.2 =
      Outcome.ok ()) ∧
    ((set_header ((set_header ⟨true, true, false, false, none, none, 0, []⟩ "zz").1) "zz").2.1 =
      []) := by
  decide

/-- Claim C6 as amended: a non-hex argument never reaches the serial port;
`send` and `send_with_header` (in either argument position) always raise
the validation error, while `set_header` raises it exactly when the
normalized argument differs from the memoized header and otherwise
returns silently. -/
theorem nonhex_args_never_written (s : ELMState) (arg msg : String)
    (hhex : pyIntBase16Ok (removeSpaces arg) = false) :
    (writesOf (set_header s arg).2.1 = [] ∧
      (s.header ≠ some (removeSpaces arg) →
        (set_header s arg).2.2 = Outcome.error "Header must be HEX") ∧
      (s.header = some (removeSpaces arg) → (set_header s arg).2.2 = Outcome.ok ())) ∧
    (writesOf (send s arg).2.1 = [] ∧
      (send s arg).2.2 = Outcome.error "Message must be hex-string") ∧
    (writesOf (send_with_header s arg msg).2.1 = [] ∧
      (send_with_header s arg msg).2.2 = Outcome.error "Header must be HEX") ∧
    (pyIntBase16Ok (removeSpaces msg) = true →
      writesOf (send_with_header s msg arg).2.1 = [] ∧
      (send_with_header s msg arg).2.2 = Outcome.error "Message must be hex-string") := by
  refine ⟨?_, ?_, ?_, ?_⟩
  · by_cases hmem : s.header = some (removeSpaces arg)
    · simp [set_header, hmem, writesOf]
    · simp [set_header, hmem, hhex, writesOf]
  · simp [send, hhex, writesOf]
  · simp [send_with_header, hhex, writesOf]
  · intro hmsg
    simp [send_with_header, hmsg, hhex, writesOf]

/-- Witness for the amended C6 at the non-hex argument `zz` and hex
message `1A`. -/
theorem nonhex_args_never_written_wit :
    pyIntBase16Ok (removeSpaces "zz") = false ∧
    ((writesOf (set_header ⟨true, true, false, false, none, none, 0, []⟩ "zz").2.1 = [] ∧
      ((⟨true, true, false, false, none, none, 0, []⟩ : ELMState).header ≠
          some (removeSpaces "zz") →
        (set_header ⟨true, true, false, false, none, none, 0, []⟩ "zz").2.2 =
          Outcome.error "Header must be HEX") ∧
      ((⟨true, true, false, false, none, none, 0, []⟩ : ELMState).header =
          some (removeSpaces "zz") →
        (set_header ⟨true, true, false, false, none, none, 0, []⟩ "zz").2.2 =
          Outcome.ok ())) ∧
    (writesOf (send ⟨true, true, false, false, none, none, 0, []⟩ "zz").2.1 = [] ∧
      (send ⟨true, true, false, false, none, none, 0, []⟩ "zz").2.2 =
        Outcome.error "Message must be hex-string") ∧
    (writesOf (send_with_header ⟨true, true, false, false, none, none, 0, []⟩ "zz" "1A").2.1 =
        [] ∧
      (send_with_header ⟨true, true, false, false, none, none, 0, []⟩ "zz" "1A").2.2 =
        Outcome.error "Header must be HEX") ∧
    (pyIntBase16Ok (removeSpaces "1A") = true →
      writesOf (send_with_header ⟨true, true, false, false, none, none, 0, []⟩ "1A" "zz").2.1 =
        [] ∧
      (send_with_header ⟨true, true, false, false, none, none, 0, []⟩ "1A" "zz").2.2 =
        Outcome.error "Message must be hex-string")) :=
  ⟨by decide, nonhex_args_never_written ⟨true, true, false, false, none, none, 0, []⟩
    "zz" "1A" (by decide)⟩

/-- Claim C7: for a valid hex string whose normalization differs from the
memoized header (the situation the claim presupposes — the first call is
the one that sets the header), `set_header` twice in a row issues exactly
one `ATSH` write, and the second call returns without writing anything
(its whole trace is empty). -/
theorem set_header_memoization (s : ELMState) (h r : String) (rest : List String)
    (hval : pyIntBase16Ok (removeSpaces h) = true)
    (hmem : s.header ≠ some (removeSpaces h))
    (hmon : s.monitoring = false)
    (hbuf : s.recv_buffer = r :: rest) :
    writesOf (set_header s h).2.1 = [encodeCmd ("ATSH " ++ removeSpaces h)] ∧
    (set_header s h).2.2 = Outcome.ok () ∧
    (set_header (set_header s h).1 h).2.1 = [] ∧
    writesOf (set_header (set_header s h).1 h).2.1 = [] ∧
    (set_header (set_header s h).1 h).2.2 = Outcome.ok () := by
  obtain ⟨rn, so, mon, pc, cb, hd, pr, buf⟩ := s
  simp only at hmem hmon hbuf
  subst hmon hbuf
  have hcore := executeManyCore_eq rn so false pc cb (some (removeSpaces h)) pr
    ["ATSH " ++ removeSpaces h] (r :: rest) (by simp)
  have hset : set_header ⟨rn, so, false, pc, cb, hd, pr, r :: rest⟩ h =
      (⟨rn, so, false, false, cb, some (removeSpaces h), pr, rest⟩,
        [Event.setProcessing true, Event.write (encodeCmd ("ATSH " ++ removeSpaces h)),
          Event.draw r, Event.setProcessing false],
        Outcome.ok ()) := by
    simp [set_header, hmem, hval, execute, execute_many, hcore, loopTrace, lastResp]
  rw [hset]
  refine ⟨by simp [writesOf], rfl, ?_, ?_, ?_⟩ <;> simp [set_header, writesOf]

/-- Witness for C7 at the header `7E0` on a fresh non-monitoring device
with one queued response. -/
theorem set_header_memoization_wit :
    pyIntBase16Ok (removeSpaces "7E0") = true ∧
    (⟨true, true, false, false, none, none, 0, ["OK>"]⟩ : ELMState).header ≠
      some (removeSpaces "7E0") ∧
    (⟨true, true, false, false, none, none, 0, ["OK>"]⟩ : ELMState).monitoring = false ∧
    (⟨true, true, false, false, none, none, 0, ["OK>"]⟩ : ELMState).recv_buffer =
      "OK>" :: [] ∧
    (writesOf (set_header ⟨true, true, false, false, none, none, 0, ["OK>"]⟩ "7E0").2.1 =
      [encodeCmd ("ATSH " ++ removeSpaces "7E0")] ∧
    (set_header ⟨true, true, false, false, none, none, 0, ["OK>"]⟩ "7E0").2.2 =
      Outcome.ok () ∧
    (set_header ((set_header ⟨true, true, false, false, none, none, 0, ["OK>"]⟩ "7E0").1) "7E0").2.1 =
      [] ∧
    writesOf (set_header ((set_header ⟨true, true, false, false, none, none, 0, ["OK>"]⟩ "7E0").1) "7E0").2.1 =
      [] ∧
    (set_header ((set_header ⟨true, true, false, false, none, none, 0, ["OK>"]⟩ "7E0").1) "7E0").2.2 =
      Outcome.ok ()) :=
  ⟨by decide, by decide, rfl, rfl,
    set_header_memoization ⟨true, true, false, false, none, none, 0, ["OK>"]⟩
      "7E0" "OK>" [] (by decide) (by decide) rfl rfl⟩

/-- Claim C8: with monitoring on, no command being processed, a registered
callback and an empty queue, a completed frame equal to the `ATMA` echo is
never passed to the callback (the trace ends after the draw), and any
other frame is passed to the callback with its last two bytes — the CR
terminator and the control byte — stripped. -/
theorem monitor_frame_routing (s : ELMState) (cb : Nat) (f : String)
    (hm : s.monitoring = true) (hp : s.processing_command = false)
    (hcb : s.monitor_callback = some cb) (hbuf : s.recv_buffer = []) :
    (f = "ATMA\r" → (run_step s f).2.1 = [Event.put f, Event.draw f]) ∧
    (f ≠ "ATMA\r" →
      (run_step s f).2.1 = [Event.put f, Event.draw f, Event.callback cb (pyDropLast2 f)]) := by
  obtain ⟨rn, so, mon, pc, cb0, hd, pr, buf⟩ := s
  simp only at hm hp hcb hbuf
  subst hm hp hcb hbuf
  constructor <;> intro hf <;> simp [run_step, process_data, draw_response, hf]

/-- Witness for C8 at a non-echo broadcast frame. -/
theorem monitor_frame_routing_wit :
    (⟨true, true, true, false, some 3, none, 0, []⟩ : ELMState).monitoring = true ∧
    (⟨true, true, true, false, some 3, none, 0, []⟩ : ELMState).processing_command = false ∧
    (⟨true, true, true, false, some 3, none, 0, []⟩ : ELMState).monitor_callback = some 3 ∧
    (⟨true, true, true, false, some 3, none, 0, []⟩ : ELMState).recv_buffer = [] ∧
    (("7E8 06 41\r" : String) = "ATMA\r" →
      (run_step ⟨true, true, true, false, some 3, none, 0, []⟩ "7E8 06 41\r").2.1 =
        [Event.put "7E8 06 41\r", Event.draw "7E8 06 41\r"]) ∧
    (("7E8 06 41\r" : String) ≠ "ATMA\r" →
      (run_step ⟨true, true, true, false, some 3, none, 0, []⟩ "7E8 06 41\r").2.1 =
        [Event.put "7E8 06 41\r", Event.draw "7E8 06 41\r",
          Event.callback 3 (pyDropLast2 "7E8 06 41\r")]) :=
  ⟨rfl, rfl, rfl, rfl,
    monitor_frame_routing ⟨true, true, true, false, some 3, none, 0, []⟩ 3
      "7E8 06 41\r" rfl rfl rfl rfl⟩

/-- Claim C9: for a valid hex message on a non-monitoring device with a
queued response frame, `send` writes the normalized message and returns
the boolean that is false exactly when the raw response contains a `?`
byte or the substring `ERROR`; adapter rejection is reported through this
boolean, not through an exception. -/
theorem send_reports_rejection (s : ELMState) (m r : String) (rest : List String)
    (hval : pyIntBase16Ok (removeSpaces m) = true)
    (hmon : s.monitoring = false)
    (hbuf : s.recv_buffer = r :: rest) :
    writesOf (send s m).2.1 = [encodeCmd (removeSpaces m)] ∧
    (send s m).2.2 = Outcome.ok (!(bytesContains r "?" || bytesContains r "ERROR")) := by
  obtain ⟨rn, so, mon, pc, cb, hd, pr, buf⟩ := s
  simp only at hmon hbuf
  subst hmon hbuf
  have hcore := executeManyCore_eq rn so false pc cb hd pr [removeSpaces m] (r :: rest)
    (by simp)
  simp [send, hval, execute, execute_many, hcore, loopTrace, lastResp, writesOf]

/-- Witness for C9: message `0201` against the rejection response `?>`. -/
theorem send_reports_rejection_wit :
    pyIntBase16Ok (removeSpaces "0201") = true ∧
    (⟨true, true, false, false, none, none, 0, ["?>"]⟩ : ELMState).monitoring = false ∧
    (⟨true, true, false, false, none, none, 0, ["?>"]⟩ : ELMState).recv_buffer = "?>" :: [] ∧
    (writesOf (send ⟨true, true, false, false, none, none, 0, ["?>"]⟩ "0201").2.1 =
      [encodeCmd (removeSpaces "0201")] ∧
    (send ⟨true, true, false, false, none, none, 0, ["?>"]⟩ "0201").2.2 =
      Outcome.ok (!(bytesContains "?>" "?" || bytesContains "?>" "ERROR"))) :=
  ⟨by decide, rfl, rfl,
    send_reports_rejection ⟨true, true, false, false, none, none, 0, ["?>"]⟩
      "0201" "?>" [] (by decide) rfl rfl⟩

/-- Claim C10: `set_header` on a non-hex string that differs from the memo
stores the rejected value in the memo before raising (and writes nothing),
so an immediately repeated call with the same value matches the memo and
returns silently — no exception and no bytes written. -/
theorem set_header_nonhex_memoized (s : ELMState) (h : String)
    (hval : pyIntBase16Ok (removeSpaces h) = false)
    (hmem : s.header ≠ some (removeSpaces h)) :
    (set_header s h).2.2 = Outcome.error "Header must be HEX" ∧
    (set_header s h).1.header = some (removeSpaces h) ∧
    (set_header s h).2.1 = [] ∧
    (set_header (set_header s h).1 h).2.2 = Outcome.ok () ∧
    (set_header (set_header s h).1 h).2.1 = [] := by
  have h1 : set_header s h =
      ({ s with header := some (removeSpaces h) }, [], Outcome.error "Header must be HEX") := by
    simp [set_header, hmem, hval]
  rw [h1]
  refine ⟨rfl, rfl, rfl, ?_, ?_⟩ <;> simp [set_header]

/-- Witness for C10 at the non-hex header `zz` on a device with no memoized
header. -/
theorem set_header_nonhex_memoized_wit :
    pyIntBase16Ok (removeSpaces "zz") = false ∧
    (⟨true, true, false, false, none, some "7E0", 0, []⟩ : ELMState).header ≠
      some (removeSpaces "zz") ∧
    ((set_header ⟨true, true, false, false, none, some "7E0", 0, []⟩ "zz").2.2 =
      Outcome.error "Header must be HEX" ∧
    (set_header ⟨true, true, false, false, none, some "7E0", 0, []⟩ "zz").1.header =
      some (removeSpaces "zz") ∧
    (set_header ⟨true, true, false, false, none, some "7E0", 0, []⟩ "zz").2.1 = [] ∧
    (set_header ((set_header ⟨true, true, false, false, none, some "7E0", 0, []⟩ "zz").1) "zz").2.2 =
      Outcome.ok () ∧
    (set_header ((set_header ⟨true, true, false, false, none, some "7E0", 0, []⟩ "zz").1) "zz").2.1 =
      []) :=
  ⟨by decide, by decide,
    set_header_nonhex_memoized ⟨true, true, false, false, none, some "7E0", 0, []⟩
      "zz" (by decide) (by decide)⟩
